import Mathlib

/-!
Shallow embedding of the pydantic record-validation models in
`ex0/space_station.py`, `ex1/alien_contact.py` and `ex2/space_crew.py`.

Modelling conventions:
* Python `str` is `String`, `int` is `Int`, `float` is `Rat` (all constraint
  bounds and comparisons in the source are exactly representable), `datetime`
  is `Nat` (an abstract clock tick), `bool` is `Bool`.
* A raw input record is a structure whose defaulted / optional fields are
  `Option`-valued; required fields are assumed present and type-correct
  (type coercion is outside the claims under study).
* pydantic field validation collects every field error before deciding, in
  field declaration order; we model each declared `Field(...)` constraint as a
  named boolean check, in declaration order, and the field phase as the list
  of names of the failing checks.
* A `@model_validator(mode="after")` runs only when the field phase produced
  no errors, and its body is a chain of `if ...: raise ValueError(...)`
  statements: the first failing condition aborts with that error (fail-fast).
* `default_factory=datetime.now` reads the wall clock when (and only when)
  the field is missing; the clock is modelled as an explicit `now : Nat`
  argument to validation.
-/

/-- Inclusive lower bound on a `Nat` (pydantic `min_length`). -/
def natGe (lo n : Nat) : Bool := decide (lo ≤ n)

/-- Inclusive upper bound on a `Nat` (pydantic `max_length`). -/
def natLe (hi n : Nat) : Bool := decide (n ≤ hi)

/-- Inclusive lower bound on an `Int` (pydantic `ge`). -/
def intGe (lo x : Int) : Bool := decide (lo ≤ x)

/-- Inclusive upper bound on an `Int` (pydantic `le`). -/
def intLe (hi x : Int) : Bool := decide (x ≤ hi)

/-- Inclusive lower bound on a `Rat` (pydantic `ge` on a float field). -/
def ratGe (lo x : Rat) : Bool := decide (lo ≤ x)

/-- Inclusive upper bound on a `Rat` (pydantic `le` on a float field). -/
def ratLe (hi x : Rat) : Bool := decide (x ≤ hi)

/-- pydantic `max_length` on an `Optional[str]` field: `None` passes. -/
def optNatLe (hi : Nat) : Option String → Bool
  | none => true
  | some s => natLe hi s.length

/-- The ordered list of field errors produced by a list of named checks:
the names of the checks that fail, in declaration order. -/
def checksToErrors (cs : List (String × Bool)) : List String :=
  cs.filterMap fun c => if c.2 then none else some c.1

/-- Validation failure: either the aggregated field-phase errors, or the
single fail-fast rule-phase error (`ρ` is the schema's rule-error type). -/
inductive VError (ρ : Type) where
  | fieldErrors (errs : List String) : VError ρ
  | ruleError (e : ρ) : VError ρ
  deriving Repr, DecidableEq

/-! ## ex0: SpaceStation -/

/-- Raw input to `SpaceStation(...)`: defaulted fields may be omitted. -/
structure RawSpaceStation where
  station_id : String
  name : String
  crew_size : Int
  power_level : Rat
  oxygen_level : Rat
  last_maintenance : Option Nat := none
  is_operational : Option Bool := none
  notes : Option String := none
  deriving Repr, DecidableEq

/-- A validated `SpaceStation` record (all defaults resolved). -/
structure SpaceStation where
  station_id : String
  name : String
  crew_size : Int
  power_level : Rat
  oxygen_level : Rat
  last_maintenance : Nat
  is_operational : Bool
  notes : Option String
  deriving Repr, DecidableEq

/-- The declared `Field(...)` constraints of `SpaceStation`, one named check
per constraint, in field declaration order and constraint order. -/
def stationChecks (r : RawSpaceStation) : List (String × Bool) :=
  [ ("station_id.min_length", natGe 3 r.station_id.length),
    ("station_id.max_length", natLe 10 r.station_id.length),
    ("name.min_length", natGe 1 r.name.length),
    ("name.max_length", natLe 50 r.name.length),
    ("crew_size.ge", intGe 1 r.crew_size),
    ("crew_size.le", intLe 20 r.crew_size),
    ("power_level.ge", ratGe 0 r.power_level),
    ("power_level.le", ratLe 100 r.power_level),
    ("oxygen_level.ge", ratGe 0 r.oxygen_level),
    ("oxygen_level.le", ratLe 100 r.oxygen_level),
    ("notes.max_length", optNatLe 200 r.notes) ]

/-- Field-phase errors of `SpaceStation`, aggregated in declaration order. -/
def stationFieldErrors (r : RawSpaceStation) : List String :=
  checksToErrors (stationChecks r)

/-- Resolve defaults: `last_maintenance` uses `default_factory=datetime.now`
(the injected clock `now`), `is_operational` defaults to `true`. -/
def resolveStation (now : Nat) (r : RawSpaceStation) : SpaceStation :=
  { station_id := r.station_id
    name := r.name
    crew_size := r.crew_size
    power_level := r.power_level
    oxygen_level := r.oxygen_level
    last_maintenance := r.last_maintenance.getD now
    is_operational := r.is_operational.getD true
    notes := r.notes }

/-- Validation of a `SpaceStation`: the field phase aggregates all errors;
there is no model validator (no rule phase) on this schema. -/
def SpaceStation.validate (now : Nat) (r : RawSpaceStation) :
    Except (VError Empty) SpaceStation :=
  if stationFieldErrors r = [] then .ok (resolveStation now r)
  else .error (.fieldErrors (stationFieldErrors r))

/-! ## ex1: AlienContact -/

/-- `class ContactType(str, Enum)`. -/
inductive ContactType where
  | radio | visual | physical | telepathic
  deriving Repr, DecidableEq

/-- Raw input to `AlienContact(...)`. -/
structure RawAlienContact where
  contact_id : String
  timestamp : Option Nat := none
  location : String
  contact_type : ContactType
  signal_strength : Rat
  duration_minutes : Int
  witness_count : Int
  message_received : Option String := none
  is_verified : Option Bool := none
  deriving Repr, DecidableEq

/-- A validated `AlienContact` record. -/
structure AlienContact where
  contact_id : String
  timestamp : Nat
  location : String
  contact_type : ContactType
  signal_strength : Rat
  duration_minutes : Int
  witness_count : Int
  message_received : Option String
  is_verified : Bool
  deriving Repr, DecidableEq

/-- The declared `Field(...)` constraints of `AlienContact`, in declaration
order. -/
def contactChecks (r : RawAlienContact) : List (String × Bool) :=
  [ ("contact_id.min_length", natGe 5 r.contact_id.length),
    ("contact_id.max_length", natLe 15 r.contact_id.length),
    ("location.min_length", natGe 3 r.location.length),
    ("location.max_length", natLe 100 r.location.length),
    ("signal_strength.ge", ratGe 0 r.signal_strength),
    ("signal_strength.le", ratLe 10 r.signal_strength),
    ("duration_minutes.ge", intGe 1 r.duration_minutes),
    ("duration_minutes.le", intLe 1440 r.duration_minutes),
    ("witness_count.ge", intGe 1 r.witness_count),
    ("witness_count.le", intLe 100 r.witness_count),
    ("message_received.max_length", optNatLe 500 r.message_received) ]

/-- Field-phase errors of `AlienContact`. -/
def contactFieldErrors (r : RawAlienContact) : List String :=
  checksToErrors (contactChecks r)

/-- Resolve defaults: `timestamp` from the injected clock, `is_verified`
defaults to `false`. -/
def resolveContact (now : Nat) (r : RawAlienContact) : AlienContact :=
  { contact_id := r.contact_id
    timestamp := r.timestamp.getD now
    location := r.location
    contact_type := r.contact_type
    signal_strength := r.signal_strength
    duration_minutes := r.duration_minutes
    witness_count := r.witness_count
    message_received := r.message_received
    is_verified := r.is_verified.getD false }

/-- Python truthiness of an `Optional[str]`: `not x` is `True` exactly when
`x` is `None` or the empty string. This is the test the source applies to
`message_received` in rule 4. -/
def optStrFalsy : Option String → Bool
  | none => true
  | some s => s.isEmpty

/-- `AlienContact.validate_contact`, the `@model_validator(mode="after")`:
four `if ...: raise ValueError(...)` business rules, fail-fast in order. -/
def AlienContact.validate_contact (c : AlienContact) :
    Except String AlienContact :=
  if c.contact_id.take 2 ≠ "AC" then
    .error "Contact ID must start with AC"
  else if c.contact_type = ContactType.physical ∧ c.is_verified = false then
    .error "Physical contact reports must be verified"
  else if c.contact_type = ContactType.telepathic ∧ c.witness_count < 3 then
    .error "Telepathic contact requires at least 3 witnesses"
  else if 7 < c.signal_strength ∧ optStrFalsy c.message_received then
    .error "Strong signals (> 7.0) should include received messages"
  else
    .ok c

/-- Full validation of an `AlienContact`: aggregated field phase, then the
fail-fast rule phase (entered only when the field phase produced no error). -/
def AlienContact.validate (now : Nat) (r : RawAlienContact) :
    Except (VError String) AlienContact :=
  if contactFieldErrors r = [] then
    match (resolveContact now r).validate_contact with
    | .ok c => .ok c
    | .error e => .error (.ruleError e)
  else .error (.fieldErrors (contactFieldErrors r))

/-! ## ex2: CrewMember and SpaceMission -/

/-- `class Rank(str, Enum)`. -/
inductive Rank where
  | cadet | officer | lieutenant | captain | commander
  deriving Repr, DecidableEq

/-- Raw input for a `CrewMember` element of the mission's `crew` list. -/
structure RawCrewMember where
  member_id : String
  name : String
  rank : Rank
  age : Int
  specialization : String
  years_experience : Int
  is_active : Option Bool := none
  deriving Repr, DecidableEq

/-- A validated `CrewMember` record. -/
structure CrewMember where
  member_id : String
  name : String
  rank : Rank
  age : Int
  specialization : String
  years_experience : Int
  is_active : Bool
  deriving Repr, DecidableEq

/-- The declared `Field(...)` constraints of `CrewMember`, in declaration
order. `CrewMember` has no model validator. -/
def crewMemberChecks (r : RawCrewMember) : List (String × Bool) :=
  [ ("member_id.min_length", natGe 3 r.member_id.length),
    ("member_id.max_length", natLe 10 r.member_id.length),
    ("name.min_length", natGe 2 r.name.length),
    ("name.max_length", natLe 50 r.name.length),
    ("age.ge", intGe 18 r.age),
    ("age.le", intLe 80 r.age),
    ("specialization.min_length", natGe 3 r.specialization.length),
    ("specialization.max_length", natLe 30 r.specialization.length),
    ("years_experience.ge", intGe 0 r.years_experience),
    ("years_experience.le", intLe 50 r.years_experience) ]

/-- Field-phase errors of a single `CrewMember`. -/
def crewMemberFieldErrors (r : RawCrewMember) : List String :=
  checksToErrors (crewMemberChecks r)

/-- Resolve a crew member's defaults: `is_active` defaults to `true`. -/
def resolveCrewMember (r : RawCrewMember) : CrewMember :=
  { member_id := r.member_id
    name := r.name
    rank := r.rank
    age := r.age
    specialization := r.specialization
    years_experience := r.years_experience
    is_active := r.is_active.getD true }

/-- Raw input to `SpaceMission(...)`; `crew` holds raw nested records. -/
structure RawSpaceMission where
  mission_id : String
  mission_name : String
  destination : String
  launch_date : Option Nat := none
  duration_days : Int
  crew : List RawCrewMember
  mission_status : Option String := none
  budget_millions : Rat
  deriving Repr, DecidableEq

/-- A validated `SpaceMission` record with validated crew. -/
structure SpaceMission where
  mission_id : String
  mission_name : String
  destination : String
  launch_date : Nat
  duration_days : Int
  crew : List CrewMember
  mission_status : String
  budget_millions : Rat
  deriving Repr, DecidableEq

/-- Tag every check of a nested crew element with its list index, as pydantic
tags nested error locations (`crew[i].field`). -/
def tagChecks (i : Nat) (cs : List (String × Bool)) : List (String × Bool) :=
  cs.map fun c => ("crew[" ++ toString i ++ "]." ++ c.1, c.2)

/-- Checks contributed by the `crew` list elements, each element's checks
tagged with its position, positions counted from `i`. -/
def crewChecksFrom : Nat → List RawCrewMember → List (String × Bool)
  | _, [] => []
  | i, m :: rest => tagChecks i (crewMemberChecks m) ++ crewChecksFrom (i + 1) rest

/-- The declared constraints of `SpaceMission` in field declaration order:
the `crew` field contributes its size bounds and then the nested per-element
checks at its declaration position. -/
def missionChecks (r : RawSpaceMission) : List (String × Bool) :=
  [ ("mission_id.min_length", natGe 5 r.mission_id.length),
    ("mission_id.max_length", natLe 15 r.mission_id.length),
    ("mission_name.min_length", natGe 3 r.mission_name.length),
    ("mission_name.max_length", natLe 100 r.mission_name.length),
    ("destination.min_length", natGe 3 r.destination.length),
    ("destination.max_length", natLe 50 r.destination.length),
    ("duration_days.ge", intGe 1 r.duration_days),
    ("duration_days.le", intLe 3650 r.duration_days),
    ("crew.min_length", natGe 1 r.crew.length),
    ("crew.max_length", natLe 12 r.crew.length) ]
  ++ crewChecksFrom 0 r.crew
  ++ [ ("budget_millions.ge", ratGe 1 r.budget_millions),
       ("budget_millions.le", ratLe 10000 r.budget_millions) ]

/-- Field-phase errors of `SpaceMission`, nested crew errors included. -/
def missionFieldErrors (r : RawSpaceMission) : List String :=
  checksToErrors (missionChecks r)

/-- Resolve mission defaults: `launch_date` from the injected clock,
`mission_status` defaults to `"planned"`, crew members resolved. -/
def resolveMission (now : Nat) (r : RawSpaceMission) : SpaceMission :=
  { mission_id := r.mission_id
    mission_name := r.mission_name
    destination := r.destination
    launch_date := r.launch_date.getD now
    duration_days := r.duration_days
    crew := r.crew.map resolveCrewMember
    mission_status := r.mission_status.getD "planned"
    budget_millions := r.budget_millions }

/-- The rule-phase errors of `SpaceMission.validate_mission`; the fixed
`ValueError` messages of the source, with the inactive-members message
carrying the interpolated list of inactive crew names. -/
inductive MissionRuleError where
  | badMissionId : MissionRuleError
  | noSeniorCrew : MissionRuleError
  | notEnoughExperienced : MissionRuleError
  | inactiveMembers (names : List String) : MissionRuleError
  deriving Repr, DecidableEq

/-- `len([m for m in self.crew if m.years_experience > 4])`. -/
def SpaceMission.experienced (m : SpaceMission) : Nat :=
  (m.crew.filter fun c => decide (4 < c.years_experience)).length

/-- `[m.name for m in self.crew if not m.is_active]`. -/
def SpaceMission.inactiveNames (m : SpaceMission) : List String :=
  (m.crew.filter fun c => !c.is_active).map fun c => c.name

/-- `SpaceMission.validate_mission`, the `@model_validator(mode="after")`:
four business rules, fail-fast in order. Rule 1's
`self.mission_id.startswith("M")` is modelled as `take 1 = "M"` (the prefix
is a single character). Rule 3 compares the Python float division
`experienced / len(self.crew)` against `0.5`; for the crew sizes the field
phase admits (at most 12) the IEEE double result compares to 0.5 exactly as
the rational value does, so it is modelled as `Rat` division. -/
def SpaceMission.validate_mission (m : SpaceMission) :
    Except MissionRuleError SpaceMission :=
  if m.mission_id.take 1 ≠ "M" then
    .error .badMissionId
  else if ¬ m.crew.any (fun c => c.rank == Rank.commander || c.rank == Rank.captain) then
    .error .noSeniorCrew
  else if 365 < m.duration_days ∧ (m.experienced : Rat) / (m.crew.length : Rat) < 1/2 then
    .error .notEnoughExperienced
  else if m.inactiveNames ≠ [] then
    .error (.inactiveMembers m.inactiveNames)
  else
    .ok m

/-- Full validation of a `SpaceMission`: aggregated field phase (nested crew
validation included), then the fail-fast rule phase. -/
def SpaceMission.validate (now : Nat) (r : RawSpaceMission) :
    Except (VError MissionRuleError) SpaceMission :=
  if missionFieldErrors r = [] then
    match (resolveMission now r).validate_mission with
    | .ok m => .ok m
    | .error e => .error (.ruleError e)
  else .error (.fieldErrors (missionFieldErrors r))

/-! ## Rule positions

The two model validators are chains of `if ...: raise`; to reason about
fail-fast order we name each rule's firing condition by its position. -/

/-- Does rule `k` of `AlienContact.validate_contact` fire (its `raise`
condition hold) on record `c`? Position 0 is the first `if` of the source. -/
def contactRuleViolated (c : AlienContact) : Fin 4 → Bool
  | 0 => decide (c.contact_id.take 2 ≠ "AC")
  | 1 => decide (c.contact_type = ContactType.physical ∧ c.is_verified = false)
  | 2 => decide (c.contact_type = ContactType.telepathic ∧ c.witness_count < 3)
  | 3 => decide (7 < c.signal_strength) && optStrFalsy c.message_received

/-- The `ValueError` message raised by rule `k` of `validate_contact`. -/
def contactRuleMsg : Fin 4 → String
  | 0 => "Contact ID must start with AC"
  | 1 => "Physical contact reports must be verified"
  | 2 => "Telepathic contact requires at least 3 witnesses"
  | 3 => "Strong signals (> 7.0) should include received messages"

/-- Does rule `k` of `SpaceMission.validate_mission` fire on record `m`? -/
def missionRuleViolated (m : SpaceMission) : Fin 4 → Bool
  | 0 => decide (m.mission_id.take 1 ≠ "M")
  | 1 => !(m.crew.any fun c => c.rank == Rank.commander || c.rank == Rank.captain)
  | 2 => decide (365 < m.duration_days) &&
         decide ((m.experienced : Rat) / (m.crew.length : Rat) < 1/2)
  | 3 => decide (m.inactiveNames ≠ [])

/-- The error raised by rule `k` of `validate_mission` on record `m`. -/
def missionRuleErrorAt (m : SpaceMission) : Fin 4 → MissionRuleError
  | 0 => .badMissionId
  | 1 => .noSeniorCrew
  | 2 => .notEnoughExperienced
  | 3 => .inactiveMembers m.inactiveNames

/-! ## Post-construction attribute assignment

Modelled from pydantic semantics: none of the source models sets
`model_config = ConfigDict(frozen=True)`, and `validate_assignment` is off
by default, so `station.crew_size = v` after construction replaces the
attribute without any re-validation. -/

/-- pydantic attribute assignment `station.crew_size = v` on the non-frozen
`SpaceStation` model: the field is replaced, no constraint is re-checked. -/
def SpaceStation.assign_crew_size (s : SpaceStation) (v : Int) : SpaceStation :=
  { s with crew_size := v }

/-- pydantic attribute assignment `contact.witness_count = v` on the
non-frozen `AlienContact` model: no constraint or rule is re-checked. -/
def AlienContact.assign_witness_count (c : AlienContact) (v : Int) : AlienContact :=
  { c with witness_count := v }

/-- pydantic attribute assignment `member.age = v` on the non-frozen
`CrewMember` model: no constraint is re-checked. -/
def CrewMember.assign_age (c : CrewMember) (v : Int) : CrewMember :=
  { c with age := v }

/-- pydantic attribute assignment `mission.duration_days = v` on the
non-frozen `SpaceMission` model: no constraint or rule is re-checked. -/
def SpaceMission.assign_duration_days (m : SpaceMission) (v : Int) : SpaceMission :=
  { m with duration_days := v }

/-! ## Concrete records (drawn from the demo `main()` inputs) -/

/-- `station1` of `ex0/main`: all fields valid. -/
def station1Raw : RawSpaceStation :=
  { station_id := "ISS001"
    name := "International Space Station"
    crew_size := 6
    power_level := mkRat 171 2
    oxygen_level := mkRat 923 10 }

/-- `station2` of `ex0/main`: `crew_size=155` violates `le=20`. -/
def station2Raw : RawSpaceStation :=
  { station_id := "ISS001"
    name := "International Space Station"
    crew_size := 155
    power_level := mkRat 171 2
    oxygen_level := mkRat 923 10 }

/-- A mission input with an empty crew list (violates `crew.min_length`). -/
def missionCrewlessRaw : RawSpaceMission :=
  { mission_id := "M2024_MARS"
    mission_name := "Mars Colony Establishment"
    destination := "Mars"
    duration_days := 900
    crew := []
    budget_millions := 2500 }

/-- A raw crew member whose `age=17` violates `ge=18`. -/
def underageCrewRaw : RawCrewMember :=
  { member_id := "C001"
    name := "Sarah Connor"
    rank := Rank.commander
    age := 17
    specialization := "Mission Command"
    years_experience := 15 }

/-- A mission input whose only field problem is `crew[0].age`. -/
def missionBadCrewRaw : RawSpaceMission :=
  { mission_id := "M2024_MARS"
    mission_name := "Mars Colony Establishment"
    destination := "Mars"
    duration_days := 900
    crew := [underageCrewRaw]
    budget_millions := 2500 }

/-- A contact violating exactly rules at positions 0 and 3: the id does not
start with `AC`, and the signal is strong with no message. -/
def contactVio03 : AlienContact :=
  { contact_id := "XC_2024_001"
    timestamp := 0
    location := "Area 51, Nevada"
    contact_type := ContactType.radio
    signal_strength := mkRat 17 2
    duration_minutes := 45
    witness_count := 5
    message_received := none
    is_verified := false }

/-- A mission violating exactly rules at positions 1 and 3: no senior crew,
and an inactive member. -/
def missionVio13 : SpaceMission :=
  { mission_id := "M2024_MOON"
    mission_name := "Moon Base"
    destination := "Moon"
    launch_date := 0
    duration_days := 30
    crew := [ { member_id := "C004"
                name := "Bob Cadet"
                rank := Rank.cadet
                age := 22
                specialization := "Cleaning"
                years_experience := 1
                is_active := false } ]
    mission_status := "planned"
    budget_millions := 500 }

/-- A contact that passes rules 1-3, has a strong signal, and supplies the
empty string for `message_received` (present but falsy in Python). -/
def contactEmptyMsg : AlienContact :=
  { contact_id := "AC_2024_001"
    timestamp := 0
    location := "Area 51, Nevada"
    contact_type := ContactType.radio
    signal_strength := mkRat 17 2
    duration_minutes := 45
    witness_count := 5
    message_received := some ""
    is_verified := false }

/-- `contact1` of `ex1/main`: strong signal with a real message. -/
def contact1 : AlienContact :=
  { contact_id := "AC_2024_001"
    timestamp := 0
    location := "Area 51, Nevada"
    contact_type := ContactType.radio
    signal_strength := mkRat 17 2
    duration_minutes := 45
    witness_count := 5
    message_received := some "Greetings from Zeta Reticuli"
    is_verified := false }

/-- A long mission whose experienced fraction is 1/3: one member above four
years of experience out of three. -/
def missionLongRaw : SpaceMission :=
  { mission_id := "M2024_MARS"
    mission_name := "Mars Colony Establishment"
    destination := "Mars"
    launch_date := 0
    duration_days := 900
    crew := [ { member_id := "C001", name := "Sarah Connor",
                rank := Rank.commander, age := 40,
                specialization := "Mission Command", years_experience := 10,
                is_active := true },
              { member_id := "C002", name := "John Smith",
                rank := Rank.cadet, age := 22,
                specialization := "Navigation", years_experience := 1,
                is_active := true },
              { member_id := "C003", name := "Alice Johnson",
                rank := Rank.officer, age := 28,
                specialization := "Engineering", years_experience := 1,
                is_active := true } ]
    mission_status := "planned"
    budget_millions := 2500 }

/-- A short mission passing rules 1-3 with exactly one inactive member. -/
def missionInactive : SpaceMission :=
  { mission_id := "M2024_MOON"
    mission_name := "Moon Base"
    destination := "Moon"
    launch_date := 0
    duration_days := 30
    crew := [ { member_id := "C001", name := "Sarah Connor",
                rank := Rank.commander, age := 40,
                specialization := "Mission Command", years_experience := 10,
                is_active := true },
              { member_id := "C002", name := "John Smith",
                rank := Rank.lieutenant, age := 32,
                specialization := "Navigation", years_experience := 8,
                is_active := false } ]
    mission_status := "planned"
    budget_millions := 500 }

/-- `mission2` of `ex2/main` as raw input: every field constraint passes
(the crew is a single valid cadet). -/
def missionValidRaw : RawSpaceMission :=
  { mission_id := "M2024_MOON"
    mission_name := "Moon Base"
    destination := "Moon"
    duration_days := 30
    crew := [ { member_id := "C004"
                name := "Bob"
                rank := Rank.cadet
                age := 22
                specialization := "Cleaning"
                years_experience := 1 } ]
    budget_millions := 500 }

/-- `contact1` of `ex1/main` as raw input, with an explicit timestamp. -/
def contact1Raw : RawAlienContact :=
  { contact_id := "AC_2024_001"
    timestamp := some 7
    location := "Area 51, Nevada"
    contact_type := ContactType.radio
    signal_strength := mkRat 17 2
    duration_minutes := 45
    witness_count := 5
    message_received := some "Greetings from Zeta Reticuli" }

/-- All declared `SpaceStation` field constraints, evaluated on an already
constructed record (the same atomic checks `stationChecks` runs on the raw
input). -/
def stationConstraintsHold (s : SpaceStation) : Bool :=
  natGe 3 s.station_id.length && natLe 10 s.station_id.length &&
  natGe 1 s.name.length && natLe 50 s.name.length &&
  intGe 1 s.crew_size && intLe 20 s.crew_size &&
  ratGe 0 s.power_level && ratLe 100 s.power_level &&
  ratGe 0 s.oxygen_level && ratLe 100 s.oxygen_level &&
  optNatLe 200 s.notes

/-- Standalone validation of a `CrewMember` (`CrewMember(...)` is
constructed directly in `ex2/main`): the aggregated field phase only, since
`CrewMember` declares no model validator. No field has a clock default. -/
def CrewMember.validate (r : RawCrewMember) : Except (VError Empty) CrewMember :=
  if crewMemberFieldErrors r = [] then .ok (resolveCrewMember r)
  else .error (.fieldErrors (crewMemberFieldErrors r))

/-- All declared `AlienContact` field constraints, evaluated on an already
constructed record (the same atomic checks `contactChecks` runs). -/
def contactConstraintsHold (c : AlienContact) : Bool :=
  natGe 5 c.contact_id.length && natLe 15 c.contact_id.length &&
  natGe 3 c.location.length && natLe 100 c.location.length &&
  ratGe 0 c.signal_strength && ratLe 10 c.signal_strength &&
  intGe 1 c.duration_minutes && intLe 1440 c.duration_minutes &&
  intGe 1 c.witness_count && intLe 100 c.witness_count &&
  optNatLe 500 c.message_received

/-- All declared `CrewMember` field constraints, evaluated on an already
constructed record (the same atomic checks `crewMemberChecks` runs). -/
def crewMemberConstraintsHold (c : CrewMember) : Bool :=
  natGe 3 c.member_id.length && natLe 10 c.member_id.length &&
  natGe 2 c.name.length && natLe 50 c.name.length &&
  intGe 18 c.age && intLe 80 c.age &&
  natGe 3 c.specialization.length && natLe 30 c.specialization.length &&
  intGe 0 c.years_experience && intLe 50 c.years_experience

/-- All declared `SpaceMission` field constraints, evaluated on an already
constructed record, the constraints of every nested crew member included
(the same atomic checks `missionChecks` runs). -/
def missionConstraintsHold (m : SpaceMission) : Bool :=
  natGe 5 m.mission_id.length && natLe 15 m.mission_id.length &&
  natGe 3 m.mission_name.length && natLe 100 m.mission_name.length &&
  natGe 3 m.destination.length && natLe 50 m.destination.length &&
  intGe 1 m.duration_days && intLe 3650 m.duration_days &&
  natGe 1 m.crew.length && natLe 12 m.crew.length &&
  m.crew.all crewMemberConstraintsHold &&
  ratGe 1 m.budget_millions && ratLe 10000 m.budget_millions

/-- `crew1[0]` of `ex2/main`: a valid crew member. -/
def crewMember1Raw : RawCrewMember :=
  { member_id := "C001"
    name := "Sarah Connor"
    rank := Rank.commander
    age := 40
    specialization := "Mission Command"
    years_experience := 15 }

/-- A mission input passing every field constraint and every business rule:
a single active commander, short duration. -/
def missionOkRaw : RawSpaceMission :=
  { mission_id := "M2024_MOON"
    mission_name := "Moon Base"
    destination := "Moon"
    duration_days := 30
    crew := [ { member_id := "C001"
                name := "Sarah Connor"
                rank := Rank.commander
                age := 40
                specialization := "Mission Command"
                years_experience := 15 } ]
    budget_millions := 500 }

/-! ## Basic lemmas about the field phase -/

/-- The field errors are exactly the names of the failing checks, in order. -/
theorem checksToErrors_eq_map_filter (cs : List (String × Bool)) :
    checksToErrors cs = (cs.filter fun c => !c.2).map Prod.fst := by
  induction cs with
  | nil => rfl
  | cons c cs ih =>
    cases h : c.2 <;>
      simp [checksToErrors, List.filterMap_cons, List.filter_cons, h] <;>
      simpa [checksToErrors] using ih

theorem checksToErrors_append (a b : List (String × Bool)) :
    checksToErrors (a ++ b) = checksToErrors a ++ checksToErrors b := by
  simp [checksToErrors, List.filterMap_append]

theorem mem_checksToErrors_of_mem {cs : List (String × Bool)} {n : String}
    (h : (n, false) ∈ cs) : n ∈ checksToErrors cs := by
  rw [checksToErrors_eq_map_filter]
  exact List.mem_map_of_mem _ (List.mem_filter.mpr ⟨h, by simp⟩)

theorem checksToErrors_eq_nil_iff (cs : List (String × Bool)) :
    checksToErrors cs = [] ↔ ∀ c ∈ cs, c.2 = true := by
  rw [checksToErrors_eq_map_filter]
  simp [List.map_eq_nil_iff, List.filter_eq_nil_iff]

/-! ## C1: field-phase aggregation -/

/-- Claim C1: for every raw input, the field phase yields exactly the failing
declared constraints as errors — one error per violated constraint, in field
declaration order then constraint order, with no short-circuit — and whenever
this list is non-empty, validation fails with those field errors and the rule
phase (model validator) is never entered. Stated for the `SpaceStation` and
`SpaceMission` schemas cited by the claim. -/
theorem field_phase_aggregation (now : Nat) (rs : RawSpaceStation)
    (rm : RawSpaceMission) :
    stationFieldErrors rs = ((stationChecks rs).filter fun c => !c.2).map Prod.fst ∧
    missionFieldErrors rm = ((missionChecks rm).filter fun c => !c.2).map Prod.fst ∧
    (stationFieldErrors rs ≠ [] →
      SpaceStation.validate now rs = .error (.fieldErrors (stationFieldErrors rs))) ∧
    (missionFieldErrors rm ≠ [] →
      SpaceMission.validate now rm = .error (.fieldErrors (missionFieldErrors rm))) := by
  refine ⟨checksToErrors_eq_map_filter _, checksToErrors_eq_map_filter _, ?_, ?_⟩ <;>
    intro h <;> simp [SpaceStation.validate, SpaceMission.validate, h]

/-- Witness for C1 at the demo inputs: `station2` (`crew_size=155`) and a
crewless mission both fail with their aggregated field errors. -/
theorem field_phase_aggregation_witness :
    SpaceStation.validate 0 station2Raw = .error (.fieldErrors (stationFieldErrors station2Raw)) ∧
    SpaceMission.validate 0 missionCrewlessRaw = .error (.fieldErrors (missionFieldErrors missionCrewlessRaw)) :=
  ⟨(field_phase_aggregation 0 station2Raw missionCrewlessRaw).2.2.1 (by decide),
   (field_phase_aggregation 0 station2Raw missionCrewlessRaw).2.2.2 (by decide)⟩

/-! ## C9: inclusive bounds -/

/-- Claim C9: every `Range`/`Length` bound declared by the three schemas is
inclusive: the constraint accepts a value exactly at its declared min or max
and rejects a value one unit past it. Each conjunct instantiates the very
check used by `stationChecks`, `contactChecks`, `missionChecks` or
`crewMemberChecks` at its declared bound. -/
theorem bounds_inclusive :
    -- SpaceStation: station_id len 3-10, name len 1-50, crew_size 1-20,
    -- power_level / oxygen_level 0.0-100.0, notes len ≤ 200
    (natGe 3 3 = true ∧ natGe 3 2 = false ∧ natLe 10 10 = true ∧ natLe 10 11 = false) ∧
    (natGe 1 1 = true ∧ natGe 1 0 = false ∧ natLe 50 50 = true ∧ natLe 50 51 = false) ∧
    (intGe 1 1 = true ∧ intGe 1 0 = false ∧ intLe 20 20 = true ∧ intLe 20 21 = false) ∧
    (ratGe 0 0 = true ∧ ratGe 0 (-1) = false ∧ ratLe 100 100 = true ∧ ratLe 100 101 = false) ∧
    (natLe 200 200 = true ∧ natLe 200 201 = false ∧ optNatLe 200 none = true) ∧
    -- AlienContact: contact_id len 5-15, location len 3-100,
    -- signal_strength 0.0-10.0, duration_minutes 1-1440, witness_count 1-100,
    -- message_received len ≤ 500
    (natGe 5 5 = true ∧ natGe 5 4 = false ∧ natLe 15 15 = true ∧ natLe 15 16 = false) ∧
    (natLe 100 100 = true ∧ natLe 100 101 = false) ∧
    (ratGe 0 0 = true ∧ ratGe 0 (-1) = false ∧ ratLe 10 10 = true ∧ ratLe 10 11 = false) ∧
    (intGe 1 1 = true ∧ intGe 1 0 = false ∧ intLe 1440 1440 = true ∧ intLe 1440 1441 = false) ∧
    (intLe 100 100 = true ∧ intLe 100 101 = false) ∧
    (natLe 500 500 = true ∧ natLe 500 501 = false ∧ optNatLe 500 none = true) ∧
    -- SpaceMission: mission_id len 5-15, mission_name len 3-100,
    -- destination len 3-50, duration_days 1-3650, crew size 1-12,
    -- budget_millions 1.0-10000.0
    (intLe 3650 3650 = true ∧ intLe 3650 3651 = false) ∧
    (natGe 1 1 = true ∧ natGe 1 0 = false ∧ natLe 12 12 = true ∧ natLe 12 13 = false) ∧
    (ratGe 1 1 = true ∧ ratGe 1 0 = false ∧ ratLe 10000 10000 = true ∧ ratLe 10000 10001 = false) ∧
    -- CrewMember: member_id len 3-10, name len 2-50, age 18-80,
    -- specialization len 3-30, years_experience 0-50
    (natGe 2 2 = true ∧ natGe 2 1 = false) ∧
    (intGe 18 18 = true ∧ intGe 18 17 = false ∧ intLe 80 80 = true ∧ intLe 80 81 = false) ∧
    (natLe 30 30 = true ∧ natLe 30 31 = false) ∧
    (intGe 0 0 = true ∧ intGe 0 (-1) = false ∧ intLe 50 50 = true ∧ intLe 50 51 = false) := by
  decide

/-! ## C3: nested crew errors -/

/-- Tagging a crew element's checks tags its errors. -/
theorem checksToErrors_tagChecks (i : Nat) (cs : List (String × Bool)) :
    checksToErrors (tagChecks i cs) =
      (checksToErrors cs).map (fun e => "crew[" ++ toString i ++ "]." ++ e) := by
  induction cs with
  | nil => rfl
  | cons c cs ih =>
    simp only [tagChecks, List.map_cons, checksToErrors, List.filterMap_cons] at *
    cases h : c.2 <;> simp [h, ih]

/-- An error of the crew element at position `k` appears, tagged with its
index, among the errors of the crew checks counted from `i`. -/
theorem crewChecksFrom_error_mem (crew : List RawCrewMember) (i k : Nat)
    (m : RawCrewMember) (hk : crew.get? k = some m) (e : String)
    (he : e ∈ crewMemberFieldErrors m) :
    ("crew[" ++ toString (i + k) ++ "]." ++ e) ∈
      checksToErrors (crewChecksFrom i crew) := by
  induction crew generalizing i k with
  | nil => simp at hk
  | cons c rest ih =>
    cases k with
    | zero =>
      have hc : c = m := by simpa using hk
      subst hc
      rw [crewChecksFrom, checksToErrors_append, checksToErrors_tagChecks]
      exact List.mem_append_left _ (by simpa using List.mem_map_of_mem _ he)
    | succ k' =>
      have hrec := ih (i + 1) k' (by simpa using hk)
      rw [crewChecksFrom, checksToErrors_append]
      refine List.mem_append_right _ ?_
      have harith : i + (k' + 1) = (i + 1) + k' := by omega
      rw [harith]
      exact hrec

/-- Claim C3: if some element of the mission's crew list violates a
`CrewMember` field constraint, then the mission's field errors contain an
error tagged with that element's list index, and validation fails with the
field errors — the rule phase `validate_mission` is never entered. -/
theorem nested_crew_error_propagation (now : Nat) (r : RawSpaceMission)
    (k : Nat) (m : RawCrewMember) (hk : r.crew.get? k = some m)
    (he : crewMemberFieldErrors m ≠ []) :
    (∃ e ∈ crewMemberFieldErrors m,
        ("crew[" ++ toString k ++ "]." ++ e) ∈ missionFieldErrors r) ∧
    SpaceMission.validate now r = .error (.fieldErrors (missionFieldErrors r)) := by
  obtain ⟨e, he'⟩ := List.exists_mem_of_ne_nil _ he
  have hmem : ("crew[" ++ toString k ++ "]." ++ e) ∈ missionFieldErrors r := by
    unfold missionFieldErrors missionChecks
    rw [checksToErrors_append, checksToErrors_append]
    refine List.mem_append_left _ (List.mem_append_right _ ?_)
    simpa using crewChecksFrom_error_mem r.crew 0 k m hk e he'
  have hne : missionFieldErrors r ≠ [] := List.ne_nil_of_mem hmem
  exact ⟨⟨e, he', hmem⟩, by simp [SpaceMission.validate, hne]⟩

/-- Witness for C3: a mission whose `crew[0]` has `age=17` fails with the
index-tagged field error and never reaches the rule phase. -/
theorem nested_crew_error_propagation_witness :
    (∃ e ∈ crewMemberFieldErrors underageCrewRaw,
        ("crew[" ++ toString 0 ++ "]." ++ e) ∈ missionFieldErrors missionBadCrewRaw) ∧
    SpaceMission.validate 0 missionBadCrewRaw =
      .error (.fieldErrors (missionFieldErrors missionBadCrewRaw)) :=
  nested_crew_error_propagation 0 missionBadCrewRaw 0 underageCrewRaw
    (by decide) (by decide)

/-! ## C10: the experience-ratio division is well defined -/

/-- Claim C10: the division `experienced / len(self.crew)` in mission rule 3
is never a division by zero: whenever the field phase passes (so the rule
phase can run at all), the `crew.min_length` check forces at least one crew
member, and the divisor is non-zero; a mission with an empty crew fails in
the field phase and never reaches `validate_mission`. -/
theorem mission_rule_division_welldefined (now : Nat) (r : RawSpaceMission) :
    (missionFieldErrors r = [] →
      1 ≤ r.crew.length ∧ (((resolveMission now r).crew.length : Rat) ≠ 0)) ∧
    (r.crew = [] →
      SpaceMission.validate now r = .error (.fieldErrors (missionFieldErrors r)) ∧
      missionFieldErrors r ≠ []) := by
  constructor
  · intro h
    have hall := (checksToErrors_eq_nil_iff (missionChecks r)).mp h
    have hmem : ("crew.min_length", natGe 1 r.crew.length) ∈ missionChecks r := by
      simp [missionChecks]
    have hge : natGe 1 r.crew.length = true := hall _ hmem
    have hlen : 1 ≤ r.crew.length := of_decide_eq_true hge
    refine ⟨hlen, ?_⟩
    have hres : (resolveMission now r).crew.length = r.crew.length := by
      simp [resolveMission]
    rw [hres]
    exact Nat.cast_ne_zero.mpr (by omega)
  · intro hcrew
    have hlen : r.crew.length = 0 := by rw [hcrew]; rfl
    have hb : natGe 1 r.crew.length = false := by rw [hlen]; rfl
    have hmem : ("crew.min_length", false) ∈ missionChecks r := by
      rw [← hb]; simp [missionChecks]
    have hne : missionFieldErrors r ≠ [] :=
      List.ne_nil_of_mem (mem_checksToErrors_of_mem hmem)
    exact ⟨by simp [SpaceMission.validate, hne], hne⟩

/-- Witness for C10: the valid demo mission has a non-zero divisor; the
crewless mission fails in the field phase. -/
theorem mission_rule_division_welldefined_witness :
    (1 ≤ missionValidRaw.crew.length ∧
      (((resolveMission 0 missionValidRaw).crew.length : Rat) ≠ 0)) ∧
    (SpaceMission.validate 0 missionCrewlessRaw =
        .error (.fieldErrors (missionFieldErrors missionCrewlessRaw)) ∧
      missionFieldErrors missionCrewlessRaw ≠ []) :=
  ⟨(mission_rule_division_welldefined 0 missionValidRaw).1 (by decide),
   (mission_rule_division_welldefined 0 missionCrewlessRaw).2 rfl⟩

/-! ## C2: fail-fast rule phase -/

/-- Claim C2: if a record (an `AlienContact` and a `SpaceMission`, the two
schemas with model validators) violates exactly the business rules at
positions `i` and `j` with `i < j` of the declared rule list, the rule phase
reports exactly the error of rule `i`: rule `j`'s violation is not reported
in that call. -/
theorem rule_phase_fail_fast (c : AlienContact) (m : SpaceMission)
    (i j ii jj : Fin 4) (hij : i < j)
    (hc : ∀ k, contactRuleViolated c k = true ↔ (k = i ∨ k = j))
    (hij2 : ii < jj)
    (hm : ∀ k, missionRuleViolated m k = true ↔ (k = ii ∨ k = jj)) :
    c.validate_contact = .error (contactRuleMsg i) ∧
    m.validate_mission = .error (missionRuleErrorAt m ii) := by
  constructor
  · have h0 := hc 0; have h1 := hc 1; have h2 := hc 2; have h3 := hc 3
    fin_cases i <;> fin_cases j <;>
      first
        | exact absurd hij (by decide)
        | simp_all [contactRuleViolated, contactRuleMsg, AlienContact.validate_contact]
  · have h0 := hm 0; have h1 := hm 1; have h2 := hm 2; have h3 := hm 3
    fin_cases ii <;> fin_cases jj <;>
      first
        | exact absurd hij2 (by decide)
        | simp_all [missionRuleViolated, missionRuleErrorAt, SpaceMission.validate_mission]

/-- Witness for C2: a contact violating exactly rules 0 and 3 reports rule
0's message; a mission violating exactly rules 1 and 3 reports rule 1's
error. -/
theorem rule_phase_fail_fast_witness :
    contactVio03.validate_contact = .error (contactRuleMsg 0) ∧
    missionVio13.validate_mission = .error (missionRuleErrorAt missionVio13 1) :=
  rule_phase_fail_fast contactVio03 missionVio13 0 3 1 3
    (by decide) (by decide) (by decide) (by decide)

/-! ## C7: the 50% experienced-crew rule -/

/-- Claim C7: for a mission that reaches rule 3 (mission id starts with "M",
a commander or captain aboard) with `duration_days > 365`, the rule fails
with the 50%-experienced error exactly when the fraction of crew with
strictly more than 4 years of experience is below one half; a fraction of
exactly one half passes. -/
theorem long_mission_experience_rule (m : SpaceMission)
    (h0 : m.mission_id.take 1 = "M")
    (h1 : m.crew.any (fun c => c.rank == Rank.commander || c.rank == Rank.captain) = true)
    (hd : 365 < m.duration_days) :
    (m.validate_mission = .error .notEnoughExperienced ↔
      (m.experienced : Rat) / (m.crew.length : Rat) < 1/2) ∧
    ((m.experienced : Rat) / (m.crew.length : Rat) = 1/2 →
      m.validate_mission ≠ .error .notEnoughExperienced) := by
  by_cases hlt : (m.experienced : Rat) / (m.crew.length : Rat) < 1/2
  · have hv : m.validate_mission = .error .notEnoughExperienced := by
      unfold SpaceMission.validate_mission
      rw [if_neg (by simp [h0]), if_neg (by simp [h1]), if_pos ⟨hd, hlt⟩]
    refine ⟨⟨fun _ => hlt, fun _ => hv⟩, fun heq => ?_⟩
    rw [heq] at hlt
    exact absurd hlt (by norm_num)
  · have hne : m.validate_mission ≠ .error .notEnoughExperienced := by
      unfold SpaceMission.validate_mission
      rw [if_neg (by simp [h0]), if_neg (by simp [h1]), if_neg (fun h => hlt h.2)]
      split <;> simp
    exact ⟨⟨fun hv => absurd hv hne, fun hf => absurd hf hlt⟩, fun _ => hne⟩

/-- Witness for C7: a 900-day mission whose experienced fraction is 1/3
fails with the 50%-experienced error. -/
theorem long_mission_experience_rule_witness :
    missionLongRaw.validate_mission = .error .notEnoughExperienced := by
  have h := long_mission_experience_rule missionLongRaw rfl (by decide) (by decide)
  refine h.1.mpr ?_
  have he : SpaceMission.experienced missionLongRaw = 1 := rfl
  have hl : missionLongRaw.crew.length = 3 := rfl
  rw [he, hl]
  norm_num

/-! ## C8: the all-active rule names every inactive member -/

/-- Claim C8: for a mission that passes rules 1-3, validation fails exactly
when some crew member is inactive, and the error carries the name of every
inactive crew member (the full list comprehension of the source), not only
the first; if every member is active, validation succeeds. -/
theorem inactive_crew_rule (m : SpaceMission)
    (h0 : m.mission_id.take 1 = "M")
    (h1 : m.crew.any (fun c => c.rank == Rank.commander || c.rank == Rank.captain) = true)
    (h2 : ¬(365 < m.duration_days ∧ (m.experienced : Rat) / (m.crew.length : Rat) < 1/2)) :
    (m.validate_mission =
        .error (.inactiveMembers ((m.crew.filter fun c => !c.is_active).map fun c => c.name)) ↔
      ∃ c ∈ m.crew, c.is_active = false) ∧
    ((∀ c ∈ m.crew, c.is_active = true) → m.validate_mission = .ok m) := by
  have hdef : m.inactiveNames = (m.crew.filter fun c => !c.is_active).map fun c => c.name := rfl
  have hiff : m.inactiveNames = [] ↔ ∀ c ∈ m.crew, c.is_active = true := by
    simp [SpaceMission.inactiveNames, List.map_eq_nil_iff, List.filter_eq_nil_iff]
  have hiff2 : m.inactiveNames ≠ [] ↔ ∃ c ∈ m.crew, c.is_active = false := by
    rw [Ne, hiff]
    push_neg
    simp [Bool.not_eq_true]
  unfold SpaceMission.validate_mission
  rw [if_neg (by simp [h0]), if_neg (by simp [h1]), if_neg h2]
  by_cases hin : m.inactiveNames = []
  · rw [if_neg (by simp [hin])]
    refine ⟨⟨(fun h => by simp at h), fun hex => absurd (hiff2.mpr hex) (by simp [hin])⟩,
      fun _ => rfl⟩
  · rw [if_pos hin, ← hdef]
    exact ⟨⟨fun _ => hiff2.mp hin, fun _ => rfl⟩,
      fun hall => absurd (hiff.mpr hall) hin⟩

/-- Witness for C8: a short mission passing rules 1-3 with one inactive
member fails with the error naming its inactive members. -/
theorem inactive_crew_rule_witness :
    missionInactive.validate_mission =
      .error (.inactiveMembers
        ((missionInactive.crew.filter fun c => !c.is_active).map fun c => c.name)) := by
  have h := inactive_crew_rule missionInactive rfl (by decide)
    (fun hh => absurd hh.1 (by decide))
  refine h.1.mpr ?_
  refine ⟨{ member_id := "C002", name := "John Smith", rank := Rank.lieutenant,
            age := 32, specialization := "Navigation", years_experience := 8,
            is_active := false }, by decide, rfl⟩

/-! ## C4: records after construction -/

/-- `validate_contact` returns its own record on success. -/
theorem validate_contact_ok_eq {c x : AlienContact}
    (h : c.validate_contact = .ok x) : x = c := by
  unfold AlienContact.validate_contact at h
  repeat' split at h
  all_goals simp_all

/-- `validate_mission` returns its own record on success. -/
theorem validate_mission_ok_eq {m x : SpaceMission}
    (h : m.validate_mission = .ok x) : x = m := by
  unfold SpaceMission.validate_mission at h
  repeat' split at h
  all_goals simp_all

/-- If every `SpaceStation` check passes on the raw input, the resolved
record satisfies all declared constraints. -/
theorem stationConstraintsHold_of_checks (now : Nat) (r : RawSpaceStation)
    (h : ∀ p ∈ stationChecks r, p.2 = true) :
    stationConstraintsHold (resolveStation now r) = true := by
  have k1 : natGe 3 r.station_id.length = true :=
    h ("station_id.min_length", natGe 3 r.station_id.length) (by simp [stationChecks])
  have k2 : natLe 10 r.station_id.length = true :=
    h ("station_id.max_length", natLe 10 r.station_id.length) (by simp [stationChecks])
  have k3 : natGe 1 r.name.length = true :=
    h ("name.min_length", natGe 1 r.name.length) (by simp [stationChecks])
  have k4 : natLe 50 r.name.length = true :=
    h ("name.max_length", natLe 50 r.name.length) (by simp [stationChecks])
  have k5 : intGe 1 r.crew_size = true :=
    h ("crew_size.ge", intGe 1 r.crew_size) (by simp [stationChecks])
  have k6 : intLe 20 r.crew_size = true :=
    h ("crew_size.le", intLe 20 r.crew_size) (by simp [stationChecks])
  have k7 : ratGe 0 r.power_level = true :=
    h ("power_level.ge", ratGe 0 r.power_level) (by simp [stationChecks])
  have k8 : ratLe 100 r.power_level = true :=
    h ("power_level.le", ratLe 100 r.power_level) (by simp [stationChecks])
  have k9 : ratGe 0 r.oxygen_level = true :=
    h ("oxygen_level.ge", ratGe 0 r.oxygen_level) (by simp [stationChecks])
  have k10 : ratLe 100 r.oxygen_level = true :=
    h ("oxygen_level.le", ratLe 100 r.oxygen_level) (by simp [stationChecks])
  have k11 : optNatLe 200 r.notes = true :=
    h ("notes.max_length", optNatLe 200 r.notes) (by simp [stationChecks])
  simp [stationConstraintsHold, resolveStation, k1, k2, k3, k4, k5, k6, k7,
    k8, k9, k10, k11]

/-- If every `AlienContact` check passes on the raw input, the resolved
record satisfies all declared constraints. -/
theorem contactConstraintsHold_of_checks (now : Nat) (r : RawAlienContact)
    (h : ∀ p ∈ contactChecks r, p.2 = true) :
    contactConstraintsHold (resolveContact now r) = true := by
  have k1 : natGe 5 r.contact_id.length = true :=
    h ("contact_id.min_length", natGe 5 r.contact_id.length) (by simp [contactChecks])
  have k2 : natLe 15 r.contact_id.length = true :=
    h ("contact_id.max_length", natLe 15 r.contact_id.length) (by simp [contactChecks])
  have k3 : natGe 3 r.location.length = true :=
    h ("location.min_length", natGe 3 r.location.length) (by simp [contactChecks])
  have k4 : natLe 100 r.location.length = true :=
    h ("location.max_length", natLe 100 r.location.length) (by simp [contactChecks])
  have k5 : ratGe 0 r.signal_strength = true :=
    h ("signal_strength.ge", ratGe 0 r.signal_strength) (by simp [contactChecks])
  have k6 : ratLe 10 r.signal_strength = true :=
    h ("signal_strength.le", ratLe 10 r.signal_strength) (by simp [contactChecks])
  have k7 : intGe 1 r.duration_minutes = true :=
    h ("duration_minutes.ge", intGe 1 r.duration_minutes) (by simp [contactChecks])
  have k8 : intLe 1440 r.duration_minutes = true :=
    h ("duration_minutes.le", intLe 1440 r.duration_minutes) (by simp [contactChecks])
  have k9 : intGe 1 r.witness_count = true :=
    h ("witness_count.ge", intGe 1 r.witness_count) (by simp [contactChecks])
  have k10 : intLe 100 r.witness_count = true :=
    h ("witness_count.le", intLe 100 r.witness_count) (by simp [contactChecks])
  have k11 : optNatLe 500 r.message_received = true :=
    h ("message_received.max_length", optNatLe 500 r.message_received) (by simp [contactChecks])
  simp [contactConstraintsHold, resolveContact, k1, k2, k3, k4, k5, k6, k7,
    k8, k9, k10, k11]

/-- If every `CrewMember` check passes on the raw input, the resolved
record satisfies all declared constraints. -/
theorem crewMemberConstraintsHold_of_checks (r : RawCrewMember)
    (h : ∀ p ∈ crewMemberChecks r, p.2 = true) :
    crewMemberConstraintsHold (resolveCrewMember r) = true := by
  have k1 : natGe 3 r.member_id.length = true :=
    h ("member_id.min_length", natGe 3 r.member_id.length) (by simp [crewMemberChecks])
  have k2 : natLe 10 r.member_id.length = true :=
    h ("member_id.max_length", natLe 10 r.member_id.length) (by simp [crewMemberChecks])
  have k3 : natGe 2 r.name.length = true :=
    h ("name.min_length", natGe 2 r.name.length) (by simp [crewMemberChecks])
  have k4 : natLe 50 r.name.length = true :=
    h ("name.max_length", natLe 50 r.name.length) (by simp [crewMemberChecks])
  have k5 : intGe 18 r.age = true :=
    h ("age.ge", intGe 18 r.age) (by simp [crewMemberChecks])
  have k6 : intLe 80 r.age = true :=
    h ("age.le", intLe 80 r.age) (by simp [crewMemberChecks])
  have k7 : natGe 3 r.specialization.length = true :=
    h ("specialization.min_length", natGe 3 r.specialization.length) (by simp [crewMemberChecks])
  have k8 : natLe 30 r.specialization.length = true :=
    h ("specialization.max_length", natLe 30 r.specialization.length) (by simp [crewMemberChecks])
  have k9 : intGe 0 r.years_experience = true :=
    h ("years_experience.ge", intGe 0 r.years_experience) (by simp [crewMemberChecks])
  have k10 : intLe 50 r.years_experience = true :=
    h ("years_experience.le", intLe 50 r.years_experience) (by simp [crewMemberChecks])
  simp [crewMemberConstraintsHold, resolveCrewMember, k1, k2, k3, k4, k5, k6,
    k7, k8, k9, k10]

/-- If every tagged crew check passes, every crew member resolves to a
record satisfying the `CrewMember` constraints. -/
theorem crewChecksFrom_all_constraints (crew : List RawCrewMember) (i : Nat)
    (hall : ∀ p ∈ crewChecksFrom i crew, p.2 = true) :
    ∀ mr ∈ crew, crewMemberConstraintsHold (resolveCrewMember mr) = true := by
  induction crew generalizing i with
  | nil => intro mr hmr; simp at hmr
  | cons c rest ih =>
    intro mr hmr
    rw [crewChecksFrom] at hall
    rcases List.mem_cons.mp hmr with rfl | hmr2
    · refine crewMemberConstraintsHold_of_checks mr (fun p hp => ?_)
      have hmem : ("crew[" ++ toString i ++ "]." ++ p.1, p.2) ∈
          tagChecks i (crewMemberChecks mr) := by
        unfold tagChecks
        exact List.mem_map_of_mem _ hp
      exact hall ("crew[" ++ toString i ++ "]." ++ p.1, p.2)
        (List.mem_append_left _ hmem)
    · exact ih (i + 1) (fun p hp => hall _ (List.mem_append_right _ hp)) mr hmr2

/-- If every `SpaceMission` check passes on the raw input, the resolved
record satisfies all declared constraints, nested crew included. -/
theorem missionConstraintsHold_of_checks (now : Nat) (r : RawSpaceMission)
    (h : ∀ p ∈ missionChecks r, p.2 = true) :
    missionConstraintsHold (resolveMission now r) = true := by
  have k1 : natGe 5 r.mission_id.length = true :=
    h ("mission_id.min_length", natGe 5 r.mission_id.length) (by simp [missionChecks])
  have k2 : natLe 15 r.mission_id.length = true :=
    h ("mission_id.max_length", natLe 15 r.mission_id.length) (by simp [missionChecks])
  have k3 : natGe 3 r.mission_name.length = true :=
    h ("mission_name.min_length", natGe 3 r.mission_name.length) (by simp [missionChecks])
  have k4 : natLe 100 r.mission_name.length = true :=
    h ("mission_name.max_length", natLe 100 r.mission_name.length) (by simp [missionChecks])
  have k5 : natGe 3 r.destination.length = true :=
    h ("destination.min_length", natGe 3 r.destination.length) (by simp [missionChecks])
  have k6 : natLe 50 r.destination.length = true :=
    h ("destination.max_length", natLe 50 r.destination.length) (by simp [missionChecks])
  have k7 : intGe 1 r.duration_days = true :=
    h ("duration_days.ge", intGe 1 r.duration_days) (by simp [missionChecks])
  have k8 : intLe 3650 r.duration_days = true :=
    h ("duration_days.le", intLe 3650 r.duration_days) (by simp [missionChecks])
  have k9 : natGe 1 r.crew.length = true :=
    h ("crew.min_length", natGe 1 r.crew.length) (by simp [missionChecks])
  have k10 : natLe 12 r.crew.length = true :=
    h ("crew.max_length", natLe 12 r.crew.length) (by simp [missionChecks])
  have k11 : ratGe 1 r.budget_millions = true :=
    h ("budget_millions.ge", ratGe 1 r.budget_millions) (by simp [missionChecks])
  have k12 : ratLe 10000 r.budget_millions = true :=
    h ("budget_millions.le", ratLe 10000 r.budget_millions) (by simp [missionChecks])
  have hcrew : ∀ mr ∈ r.crew, crewMemberConstraintsHold (resolveCrewMember mr) = true :=
    crewChecksFrom_all_constraints r.crew 0 (fun p hp =>
      h p (by unfold missionChecks
              exact List.mem_append_left _ (List.mem_append_right _ hp)))
  have hall2 : (r.crew.map resolveCrewMember).all crewMemberConstraintsHold = true := by
    rw [List.all_eq_true]
    intro x hx
    obtain ⟨mr, hmr, rfl⟩ := List.mem_map.mp hx
    exact hcrew mr hmr
  simp [missionConstraintsHold, resolveMission, k1, k2, k3, k4, k5, k6, k7,
    k8, k9, k10, k11, k12, hall2]

/-- Counterexample to claim C4: none of the four validated records is
immutable. No source model sets `frozen=True`, so pydantic attribute
assignment (modelled by the `assign_*` operations) changes a field of each
successfully validated record without re-validation, leaving records that
violate their own declared constraints — so constructed records do not
*permanently* satisfy their field constraints. -/
theorem records_not_immutable :
    (SpaceStation.validate 0 station1Raw = .ok (resolveStation 0 station1Raw) ∧
      stationConstraintsHold (resolveStation 0 station1Raw) = true ∧
      ((resolveStation 0 station1Raw).assign_crew_size 155).crew_size = 155 ∧
      stationConstraintsHold ((resolveStation 0 station1Raw).assign_crew_size 155) = false) ∧
    (AlienContact.validate 0 contact1Raw = .ok (resolveContact 0 contact1Raw) ∧
      contactConstraintsHold (resolveContact 0 contact1Raw) = true ∧
      ((resolveContact 0 contact1Raw).assign_witness_count 0).witness_count = 0 ∧
      contactConstraintsHold ((resolveContact 0 contact1Raw).assign_witness_count 0) = false) ∧
    (CrewMember.validate crewMember1Raw = .ok (resolveCrewMember crewMember1Raw) ∧
      crewMemberConstraintsHold (resolveCrewMember crewMember1Raw) = true ∧
      ((resolveCrewMember crewMember1Raw).assign_age 17).age = 17 ∧
      crewMemberConstraintsHold ((resolveCrewMember crewMember1Raw).assign_age 17) = false) ∧
    (SpaceMission.validate 0 missionOkRaw = .ok (resolveMission 0 missionOkRaw) ∧
      missionConstraintsHold (resolveMission 0 missionOkRaw) = true ∧
      ((resolveMission 0 missionOkRaw).assign_duration_days 0).duration_days = 0 ∧
      missionConstraintsHold ((resolveMission 0 missionOkRaw).assign_duration_days 0) = false) := by
  refine ⟨⟨?_, by decide, rfl, by decide⟩, ⟨?_, by decide, rfl, by decide⟩,
    ⟨?_, by decide, rfl, by decide⟩, ⟨?_, by decide, rfl, by decide⟩⟩
  · unfold SpaceStation.validate
    rw [if_pos (by decide)]
  · have hvc : (resolveContact 0 contact1Raw).validate_contact =
        .ok (resolveContact 0 contact1Raw) := by
      unfold AlienContact.validate_contact
      rw [if_neg (by decide), if_neg (by decide), if_neg (by decide),
        if_neg (by decide)]
    unfold AlienContact.validate
    rw [if_pos (by decide), hvc]
  · unfold CrewMember.validate
    rw [if_pos (by decide)]
  · have hvm : (resolveMission 0 missionOkRaw).validate_mission =
        .ok (resolveMission 0 missionOkRaw) := by
      unfold SpaceMission.validate_mission
      rw [if_neg (by decide), if_neg (by decide),
        if_neg (fun hh => absurd hh.1 (by decide)), if_neg (by decide)]
    unfold SpaceMission.validate
    rw [if_pos (by decide), hvm]

/-- Claim C4 as amended: every record returned by successful validation — a
`SpaceStation`, `AlienContact`, `CrewMember` or `SpaceMission` — satisfies
all its declared field constraints *at construction time*, and where the
model declares business rules (`AlienContact`, `SpaceMission`) those rules
hold of the constructed record as well; but the models are not frozen, so
later attribute assignment can break this (see the counterexample). -/
theorem validated_records_constraints (now : Nat) (rs : RawSpaceStation)
    (rc : RawAlienContact) (rcm : RawCrewMember) (rm : RawSpaceMission)
    (s : SpaceStation) (c : AlienContact) (cm : CrewMember) (m : SpaceMission) :
    (SpaceStation.validate now rs = .ok s → stationConstraintsHold s = true) ∧
    (AlienContact.validate now rc = .ok c →
      contactConstraintsHold c = true ∧ c.validate_contact = .ok c) ∧
    (CrewMember.validate rcm = .ok cm → crewMemberConstraintsHold cm = true) ∧
    (SpaceMission.validate now rm = .ok m →
      missionConstraintsHold m = true ∧ m.validate_mission = .ok m) := by
  refine ⟨?_, ?_, ?_, ?_⟩
  · intro h
    unfold SpaceStation.validate at h
    by_cases he : stationFieldErrors rs = []
    · rw [if_pos he] at h
      injection h with hh
      subst hh
      exact stationConstraintsHold_of_checks now rs
        ((checksToErrors_eq_nil_iff _).mp he)
    · rw [if_neg he] at h
      simp at h
  · intro h
    unfold AlienContact.validate at h
    by_cases he : contactFieldErrors rc = []
    · rw [if_pos he] at h
      split at h
      · rename_i x hvc
        injection h with hxc
        have hx : x = resolveContact now rc := validate_contact_ok_eq hvc
        rw [hx] at hxc hvc
        subst hxc
        exact ⟨contactConstraintsHold_of_checks now rc
          ((checksToErrors_eq_nil_iff _).mp he), hvc⟩
      · rename_i e hvc
        simp at h
    · rw [if_neg he] at h
      simp at h
  · intro h
    unfold CrewMember.validate at h
    by_cases he : crewMemberFieldErrors rcm = []
    · rw [if_pos he] at h
      injection h with hh
      subst hh
      exact crewMemberConstraintsHold_of_checks rcm
        ((checksToErrors_eq_nil_iff _).mp he)
    · rw [if_neg he] at h
      simp at h
  · intro h
    unfold SpaceMission.validate at h
    by_cases he : missionFieldErrors rm = []
    · rw [if_pos he] at h
      split at h
      · rename_i x hvm
        injection h with hxm
        have hx : x = resolveMission now rm := validate_mission_ok_eq hvm
        rw [hx] at hxm hvm
        subst hxm
        exact ⟨missionConstraintsHold_of_checks now rm
          ((checksToErrors_eq_nil_iff _).mp he), hvm⟩
      · rename_i e hvm
        simp at h
    · rw [if_neg he] at h
      simp at h

/-- Witness for the amended C4: the four valid demo records each satisfy
their constraints at construction, and the contact and mission also satisfy
their business rules. -/
theorem validated_records_constraints_witness :
    stationConstraintsHold (resolveStation 0 station1Raw) = true ∧
    (contactConstraintsHold (resolveContact 0 contact1Raw) = true ∧
      (resolveContact 0 contact1Raw).validate_contact = .ok (resolveContact 0 contact1Raw)) ∧
    crewMemberConstraintsHold (resolveCrewMember crewMember1Raw) = true ∧
    (missionConstraintsHold (resolveMission 0 missionOkRaw) = true ∧
      (resolveMission 0 missionOkRaw).validate_mission = .ok (resolveMission 0 missionOkRaw)) := by
  have h := validated_records_constraints 0 station1Raw contact1Raw
    crewMember1Raw missionOkRaw (resolveStation 0 station1Raw)
    (resolveContact 0 contact1Raw) (resolveCrewMember crewMember1Raw)
    (resolveMission 0 missionOkRaw)
  refine ⟨h.1 ?_, h.2.1 ?_, h.2.2.1 ?_, h.2.2.2 ?_⟩
  · unfold SpaceStation.validate
    rw [if_pos (by decide)]
  · have hvc : (resolveContact 0 contact1Raw).validate_contact =
        .ok (resolveContact 0 contact1Raw) := by
      unfold AlienContact.validate_contact
      rw [if_neg (by decide), if_neg (by decide), if_neg (by decide),
        if_neg (by decide)]
    unfold AlienContact.validate
    rw [if_pos (by decide), hvc]
  · unfold CrewMember.validate
    rw [if_pos (by decide)]
  · have hvm : (resolveMission 0 missionOkRaw).validate_mission =
        .ok (resolveMission 0 missionOkRaw) := by
      unfold SpaceMission.validate_mission
      rw [if_neg (by decide), if_neg (by decide),
        if_neg (fun hh => absurd hh.1 (by decide)), if_neg (by decide)]
    unfold SpaceMission.validate
    rw [if_pos (by decide), hvm]

/-! ## C5: rule 4 tests Python truthiness, not presence -/

/-- Counterexample to claim C5: this contact passes rules 1-3, has
`signal_strength > 7.0`, and supplies a *present, non-null* string for
`message_received` — the empty string — yet `validate_contact` rejects it:
the source's `not self.message_received` is Python truthiness, which treats
`""` like `None`. So it is false that any supplied non-null string satisfies
rule 4. -/
theorem strong_signal_nonnull_insufficient :
    contactEmptyMsg.contact_id.take 2 = "AC" ∧
    ¬(contactEmptyMsg.contact_type = ContactType.physical ∧
        contactEmptyMsg.is_verified = false) ∧
    ¬(contactEmptyMsg.contact_type = ContactType.telepathic ∧
        contactEmptyMsg.witness_count < 3) ∧
    7 < contactEmptyMsg.signal_strength ∧
    contactEmptyMsg.message_received = some "" ∧
    contactEmptyMsg.validate_contact =
      .error "Strong signals (> 7.0) should include received messages" := by
  refine ⟨rfl, by decide, by decide, by decide, rfl, ?_⟩
  unfold AlienContact.validate_contact
  rw [if_neg (by decide), if_neg (by decide), if_neg (by decide), if_pos (by decide)]

/-- Claim C5 as amended: for a contact passing rules 1-3 with
`signal_strength > 7.0`, validation succeeds if and only if
`message_received` is present *and non-empty* (truthy in Python), not merely
non-null. -/
theorem strong_signal_message_rule (c : AlienContact)
    (h0 : c.contact_id.take 2 = "AC")
    (h1 : ¬(c.contact_type = ContactType.physical ∧ c.is_verified = false))
    (h2 : ¬(c.contact_type = ContactType.telepathic ∧ c.witness_count < 3))
    (hs : 7 < c.signal_strength) :
    c.validate_contact = .ok c ↔
      ∃ s, c.message_received = some s ∧ s.isEmpty = false := by
  unfold AlienContact.validate_contact
  rw [if_neg (by simp [h0]), if_neg h1, if_neg h2]
  by_cases hm : optStrFalsy c.message_received = true
  · rw [if_pos ⟨hs, hm⟩]
    refine ⟨(fun h => by simp at h), ?_⟩
    rintro ⟨s, hsome, hne⟩
    rw [hsome] at hm
    simp only [optStrFalsy] at hm
    rw [hm] at hne
    cases hne
  · rw [if_neg (fun h => hm h.2)]
    have hm2 : optStrFalsy c.message_received = false := by simpa using hm
    refine ⟨fun _ => ?_, fun _ => rfl⟩
    cases hcm : c.message_received with
    | none => rw [hcm] at hm2; simp [optStrFalsy] at hm2
    | some s =>
      rw [hcm] at hm2
      simp only [optStrFalsy] at hm2
      exact ⟨s, rfl, hm2⟩

/-- Witness for the amended C5: the demo contact with a real message and
signal 8.5 validates successfully. -/
theorem strong_signal_message_rule_witness :
    contact1.validate_contact = .ok contact1 :=
  (strong_signal_message_rule contact1 rfl (by decide) (by decide) (by decide)).mpr
    ⟨"Greetings from Zeta Reticuli", rfl, rfl⟩

/-! ## C6: determinism and the injected clock -/

/-- Claim C6: validation is a pure function of the raw record and the
injected clock value — validating the same record twice with the same clock
yields identical results — and the clock is read only when a timestamp
default must be applied: when the timestamp field is supplied, the result
does not depend on the clock at all. -/
theorem validation_deterministic (n1 n2 : Nat) (rs : RawSpaceStation)
    (rc : RawAlienContact) (hs : rs.last_maintenance ≠ none)
    (hc : rc.timestamp ≠ none) :
    SpaceStation.validate n1 rs = SpaceStation.validate n1 rs ∧
    AlienContact.validate n1 rc = AlienContact.validate n1 rc ∧
    SpaceStation.validate n1 rs = SpaceStation.validate n2 rs ∧
    AlienContact.validate n1 rc = AlienContact.validate n2 rc := by
  refine ⟨rfl, rfl, ?_, ?_⟩
  · rcases ht : rs.last_maintenance with _ | t
    · exact absurd ht hs
    · unfold SpaceStation.validate
      have hres : resolveStation n1 rs = resolveStation n2 rs := by
        simp [resolveStation, ht]
      rw [hres]
  · rcases hu : rc.timestamp with _ | u
    · exact absurd hu hc
    · unfold AlienContact.validate
      have hres : resolveContact n1 rc = resolveContact n2 rc := by
        simp [resolveContact, hu]
      rw [hres]

/-- Witness for C6: with timestamps supplied, two different clock values
give the same validation results. -/
theorem validation_deterministic_witness :
    SpaceStation.validate 1 { station1Raw with last_maintenance := some 42 } =
      SpaceStation.validate 2 { station1Raw with last_maintenance := some 42 } ∧
    AlienContact.validate 1 contact1Raw = AlienContact.validate 2 contact1Raw :=
  ⟨(validation_deterministic 1 2 { station1Raw with last_maintenance := some 42 }
      contact1Raw (by decide) (by decide)).2.2.1,
   (validation_deterministic 1 2 { station1Raw with last_maintenance := some 42 }
      contact1Raw (by decide) (by decide)).2.2.2⟩
